import Mathlib

/-!
Verification development for `rent_or_buy.py`.

Shallow embedding conventions:
* Calendar dates are month indices (`ℕ`): `datetime.now().date()` becomes an
  explicit `today : ℕ` parameter and `d + relativedelta(months=n)` becomes `d + n`.
* Monetary amounts and rates live in a `LinearOrderedField K` (instantiated at `ℚ`
  for executable witnesses and at `ℝ` where the irrational monthly rates
  `(1+y)^(1/12) - 1` are needed); this models the Python float arithmetic exactly,
  ignoring floating-point rounding.
* Python dicts keyed by dates are association lists `List (ℕ × K)` in insertion
  order: assignment overwrites the first matching key or appends a fresh one,
  exactly as a Python dict preserves insertion order.
* Python `assert` failures and `ZeroDivisionError` are modelled by `Except`
  results carrying the data of the corresponding message.
-/

/-- The fatal conditions the Python code can raise: the two `check_data`
assertions (collapsed into one constructor), the `Asset.withdraw` assertion
(with the `extra` shortfall from its message), the renting and buying
affordability assertions (with the amounts from their messages), and
`ZeroDivisionError` from `Mortgage.compute_payment`. -/
inductive SimError (K : Type) where
  | invalidData : SimError K
  | insufficientFunds : K → SimError K
  | rentTooExpensive : K → K → SimError K
  | mortgageTooExpensive : K → K → SimError K
  | zeroDivision : SimError K
deriving DecidableEq

set_option linter.unusedSectionVars false

variable {K : Type} [LinearOrderedField K]

/-- Lookup `l[k]` in a date-keyed dict. All lookups performed by the Python code
are on present keys; the default `0` is never exercised on those paths. -/
def dictGet (l : List (ℕ × K)) (k : ℕ) : K :=
  match l with
  | [] => 0
  | p :: rest => if p.1 = k then p.2 else dictGet rest k

/-- Assignment `l[k] = v` on a date-keyed dict: overwrite the first entry with
key `k`, or append `(k, v)` at the end (Python dicts keep insertion order). -/
def dictSet (l : List (ℕ × K)) (k : ℕ) (v : K) : List (ℕ × K) :=
  match l with
  | [] => [(k, v)]
  | p :: rest => if p.1 = k then (k, v) :: rest else p :: dictSet rest k v

@[simp] theorem dictGet_nil (k : ℕ) : dictGet ([] : List (ℕ × K)) k = 0 := rfl

@[simp] theorem dictGet_cons (p : ℕ × K) (rest : List (ℕ × K)) (k : ℕ) :
    dictGet (p :: rest) k = if p.1 = k then p.2 else dictGet rest k := rfl

@[simp] theorem dictGet_dictSet_self (l : List (ℕ × K)) (k : ℕ) (v : K) :
    dictGet (dictSet l k v) k = v := by
  induction l with
  | nil => simp [dictSet, dictGet]
  | cons p rest ih =>
    by_cases h : p.1 = k
    · simp [dictSet, h, dictGet]
    · simp [dictSet, h, dictGet, ih]

theorem dictGet_dictSet_ne (l : List (ℕ × K)) (k k' : ℕ) (v : K) (h : k' ≠ k) :
    dictGet (dictSet l k v) k' = dictGet l k' := by
  have hk : ¬(k = k') := Ne.symm h
  induction l with
  | nil => simp [dictSet, dictGet, hk]
  | cons p rest ih =>
    by_cases hp : p.1 = k
    · simp [dictSet, dictGet, hp, hk]
    · simp only [dictSet, hp, if_false, dictGet_cons, ih]

theorem dictSet_keys_of_mem (l : List (ℕ × K)) (k : ℕ) (v : K)
    (h : k ∈ l.map Prod.fst) : (dictSet l k v).map Prod.fst = l.map Prod.fst := by
  induction l with
  | nil => simp at h
  | cons p rest ih =>
    by_cases hp : p.1 = k
    · simp [dictSet, hp]
    · simp only [List.map_cons, List.mem_cons] at h
      rcases h with h | h
      · exact absurd h.symm hp
      · simp [dictSet, hp, ih h]

theorem dictSet_of_not_mem (l : List (ℕ × K)) (k : ℕ) (v : K)
    (h : k ∉ l.map Prod.fst) : dictSet l k v = l ++ [(k, v)] := by
  induction l with
  | nil => simp [dictSet]
  | cons p rest ih =>
    simp only [List.map_cons, List.mem_cons] at h
    push_neg at h
    simp [dictSet, Ne.symm h.1, ih h.2]

/-- Lookup in a dict built by rewriting every entry's value from its own key:
the looked-up value is `g k` as soon as `k` is a key at all. -/
theorem dictGet_map_keyed (l : List (ℕ × K)) (g : ℕ → K) (k : ℕ)
    (h : k ∈ l.map Prod.fst) :
    dictGet (l.map (fun p => (p.1, g p.1))) k = g k := by
  induction l with
  | nil => simp at h
  | cons p rest ih =>
    simp only [List.map_cons, List.mem_cons] at h
    by_cases hp : p.1 = k
    · simp [dictGet, hp]
    · rcases h with h | h
      · exact absurd h.symm hp
      · simp [dictGet, hp, ih h]

/-- Class `Asset` from the source: a current-date pointer, a date-keyed dict of
values, and a fixed monthly growth rate. -/
structure Asset (K : Type) where
  date : ℕ
  value : List (ℕ × K)
  monthly_rate : K
deriving DecidableEq

/-- `Asset.__init__`: value dict seeded with the initial value at the initial date. -/
def Asset.make (initial_value : K) (monthly_rate : K) (initial_date : ℕ) : Asset K :=
  { date := initial_date, value := [(initial_date, initial_value)], monthly_rate := monthly_rate }

/-- `Asset.withdraw`: `extra = amount - self.value[self.date]`; assert
`self.value[self.date] >= amount` (failure reports `extra`), then subtract. -/
def Asset.withdraw (a : Asset K) (amount : K) : Except (SimError K) (Asset K) :=
  let extra := amount - dictGet a.value a.date
  if amount ≤ dictGet a.value a.date then
    .ok { a with value := dictSet a.value a.date (dictGet a.value a.date - amount) }
  else
    .error (.insufficientFunds extra)

/-- `Asset.invest`: add `amount` to the value at the current date. -/
def Asset.invest (a : Asset K) (amount : K) : Asset K :=
  { a with value := dictSet a.value a.date (dictGet a.value a.date + amount) }

/-- `Asset.update`: store next month's value `value[date] * (1 + monthly_rate)`
under the next date and advance the date pointer. -/
def Asset.update (a : Asset K) : Asset K :=
  let next_date := a.date + 1
  { a with
    value := dictSet a.value next_date (dictGet a.value a.date * (1 + a.monthly_rate)),
    date := next_date }

/-- Class `Mortgage` from the source. `monthly_payment` does not exist on the
Python object until `compute_payment` sets it; here the field is seeded with `0`
and only ever read after `compute_payment` has run, as in the source. -/
structure Mortgage (K : Type) where
  initial_date : ℕ
  date : ℕ
  monthly_rate : K
  initial_value : K
  value : List (ℕ × K)
  duration : ℕ
  monthly_payment : K
deriving DecidableEq

/-- `Mortgage.__init__`. -/
def Mortgage.make (initial_value : K) (monthly_rate : K) (duration : ℕ)
    (initial_date : ℕ) : Mortgage K :=
  { initial_date := initial_date, date := initial_date, monthly_rate := monthly_rate,
    initial_value := initial_value, value := [(initial_date, initial_value)],
    duration := duration, monthly_payment := 0 }

/-- `Mortgage.compute_payment`: `discount_factor = 1/(1+r)`,
`coeff = (1 - discount_factor^duration)/(1 - discount_factor)`,
`monthly_payment = initial_value / coeff`. Each Python float division raises
`ZeroDivisionError` when its denominator is zero, modelled by the guards. -/
def Mortgage.compute_payment (m : Mortgage K) : Except (SimError K) (Mortgage K) :=
  if 1 + m.monthly_rate = 0 then .error .zeroDivision else
  let discount_factor := 1 / (1 + m.monthly_rate)
  if 1 - discount_factor = 0 then .error .zeroDivision else
  let coeff := (1 - discount_factor ^ m.duration) / (1 - discount_factor)
  if coeff = 0 then .error .zeroDivision else
  .ok { m with monthly_payment := m.initial_value / coeff }

/-- `Mortgage.update`: `value[date] -= monthly_payment`, then
`value[next] = value[date] * (1 + monthly_rate)`, then advance the pointer. -/
def Mortgage.update (m : Mortgage K) : Mortgage K :=
  let v1 := dictSet m.value m.date (dictGet m.value m.date - m.monthly_payment)
  let next_date := m.date + 1
  { m with
    value := dictSet v1 next_date (dictGet v1 m.date * (1 + m.monthly_rate)),
    date := next_date }

/-- Class `Scenario` from the source: the constructor arguments together with
the derived attributes `__init__` stores (`today`, the `rent` and
`housing_budget` series, and the three monthly-equivalent rates). -/
structure Scenario (K : Type) where
  today : ℕ
  initial_capital : K
  horizon : ℕ
  rent : List (ℕ × K)
  housing_budget : List (ℕ × K)
  house_price : K
  downpayment : K
  housing_gr_rate : K
  rent_gr_rate : K
  mortgage_rate : K
  return_rate : K
  monthly_rate : K
  monthly_housing_gr_rate : K
  monthly_mortgage_rate : K
deriving DecidableEq

/-- `Scenario.create_monthly_series`: amount adjusted by `yearly_rate` every
12 months, `{today + n: initial_value * (1 + yearly_rate) ** int(n/12)
for n in range(horizon)}`; `int(n/12)` is `n / 12` on `ℕ`. The source reads
`self.horizon`; here the horizon is an explicit argument. -/
def create_monthly_series (initial_value : K) (initial_date : ℕ) (yearly_rate : K)
    (horizon : ℕ) : List (ℕ × K) :=
  (List.range horizon).map
    (fun n_months => (initial_date + n_months, initial_value * (1 + yearly_rate) ^ (n_months / 12)))

/-- `Scenario.check_data`: the two constructor assertions,
`downpayment <= initial_capital` and `downpayment / house_price >= 0.2`. -/
def Scenario.check_data (s : Scenario K) : Bool :=
  decide (s.downpayment ≤ s.initial_capital) && decide (1/5 ≤ s.downpayment / s.house_price)

/-- `Scenario.compute_monthly_rate`: `(1 + yearly_rate)**(1/12) - 1`, a real
12th root, so it lives over `ℝ`. -/
noncomputable def compute_monthly_rate (yearly_rate : ℝ) : ℝ :=
  (1 + yearly_rate) ^ ((1 : ℝ) / 12) - 1

/-- `Scenario.__init__` with the three `compute_monthly_rate` results passed in
as arguments (they are the only non-field-arithmetic step of the constructor;
`Scenario.make` below supplies them from `compute_monthly_rate`), and
`datetime.now().date()` passed in as `today`. The two `check_data` assertions
become an `Except.error`. -/
def Scenario.make_with_rates (today : ℕ)
    (capital housing_budget monthly_rent house_price downpayment
      housing_gr_rate rent_gr_rate mortgage_rate return_rate : K) (horizon : ℕ)
    (monthly_rate monthly_housing_gr_rate monthly_mortgage_rate : K) :
    Except (SimError K) (Scenario K) :=
  let s : Scenario K :=
    { today := today
      initial_capital := capital
      horizon := horizon
      rent := create_monthly_series monthly_rent today rent_gr_rate horizon
      housing_budget := create_monthly_series housing_budget today housing_gr_rate horizon
      house_price := house_price
      downpayment := downpayment
      housing_gr_rate := housing_gr_rate
      rent_gr_rate := rent_gr_rate
      mortgage_rate := mortgage_rate
      return_rate := return_rate
      monthly_rate := monthly_rate
      monthly_housing_gr_rate := monthly_housing_gr_rate
      monthly_mortgage_rate := monthly_mortgage_rate }
  if s.check_data then .ok s else .error .invalidData

/-- `Scenario.__init__` over `ℝ`, deriving the three monthly rates exactly as the
source does. -/
noncomputable def Scenario.make (today : ℕ)
    (capital housing_budget monthly_rent house_price downpayment
      housing_gr_rate rent_gr_rate mortgage_rate return_rate : ℝ) (horizon : ℕ) :
    Except (SimError ℝ) (Scenario ℝ) :=
  Scenario.make_with_rates today capital housing_budget monthly_rent house_price
    downpayment housing_gr_rate rent_gr_rate mortgage_rate return_rate horizon
    (compute_monthly_rate return_rate) (compute_monthly_rate housing_gr_rate)
    (compute_monthly_rate mortgage_rate)

/-- `Scenario.compute_transfer_tax` as a function of `house_price`: the loop
over brackets `[0, 50e3, 250e3, 500e3, 1e6, inf]` with rates
`[0.005, 0.01, 0.015, 0.02, 0.025]` accumulates
`rate * (min(house_price, upper) - lower)` while `house_price > lower` and
breaks at the first bracket whose lower cutoff is not exceeded; the nested
conditionals below are that loop unrolled (`min(p, inf) = p` in the last
bracket). -/
def compute_transfer_tax (house_price : K) : K :=
  if 0 < house_price then
    (5/1000) * (min house_price 50000 - 0) +
    (if 50000 < house_price then
      (1/100) * (min house_price 250000 - 50000) +
      (if 250000 < house_price then
        (15/1000) * (min house_price 500000 - 250000) +
        (if 500000 < house_price then
          (2/100) * (min house_price 1000000 - 500000) +
          (if 1000000 < house_price then (25/1000) * (house_price - 1000000) else 0)
        else 0)
      else 0)
    else 0)
  else 0

/-- The fixed composite municipal rate from `compute_municipal_taxes`:
`0.005712 + 0.000281 + 0.000975 + 0.000023`. -/
def municipal_tax_rate : K :=
  5712/1000000 + 281/1000000 + 975/1000000 + 23/1000000

/-- The mutable state `simulate_buying` keeps on `self`: the capital and house
assets, the mortgage, and the `municipal_taxes` and `net_asset_position` dicts. -/
structure BuyState (K : Type) where
  capital : Asset K
  house : Asset K
  mortgage : Mortgage K
  municipal_taxes : List (ℕ × K)
  net_asset_position : List (ℕ × K)
deriving DecidableEq

/-- `Scenario.compute_municipal_taxes`: store `rate * house.value[date]` under
`date` in the `municipal_taxes` dict. -/
def computeMunicipalTaxes (st : BuyState K) (d : ℕ) : BuyState K :=
  { st with municipal_taxes := dictSet st.municipal_taxes d (municipal_tax_rate * dictGet st.house.value d) }

/-- `Scenario.compute_net_asset_position`: rebuild the net-asset dict as
`{date: capital.value[date] + house.value[date] - mortgage.value[date]
for date in capital.value.keys()}`. -/
def computeNetAssetPosition (st : BuyState K) : BuyState K :=
  { st with
    net_asset_position := st.capital.value.map
      (fun p => (p.1, dictGet st.capital.value p.1 + dictGet st.house.value p.1
        - dictGet st.mortgage.value p.1)) }

/-- One iteration of the `simulate_renting` loop at date `d`: read the month's
available amount and rent, assert affordability, invest the surplus or withdraw
the shortfall, then `capital.update()`. -/
def rentStep (s : Scenario K) (d : ℕ) (a : Asset K) : Except (SimError K) (Asset K) :=
  let amount_available := dictGet a.value d + dictGet s.housing_budget d
  let current_rent := dictGet s.rent d
  if current_rent ≤ amount_available then
    if current_rent ≤ dictGet s.housing_budget d then
      .ok (Asset.update (Asset.invest a (dictGet s.housing_budget d - current_rent)))
    else
      match Asset.withdraw a (current_rent - dictGet s.housing_budget d) with
      | .error e => .error e
      | .ok a2 => .ok (Asset.update a2)
  else .error (.rentTooExpensive current_rent amount_available)

/-- The `for n_months in range(horizon)` loop of `simulate_renting`: `n` months
already done, `k` remaining. -/
def rentLoop (s : Scenario K) : ℕ → ℕ → Asset K → Except (SimError K) (Asset K)
  | _, 0, a => .ok a
  | n, k + 1, a =>
    match rentStep s (s.today + n) a with
    | .error e => .error e
    | .ok a2 => rentLoop s (n + 1) k a2

/-- `Scenario.simulate_renting`: seed the capital asset and run the loop over
the whole horizon, returning the capital asset the method leaves on `self`. -/
def Scenario.simulate_renting (s : Scenario K) : Except (SimError K) (Asset K) :=
  rentLoop s 0 s.horizon (Asset.make s.initial_capital s.monthly_rate s.today)

/-- The setup part of `simulate_buying`, before its loop: seed capital and
withdraw the downpayment, create the house asset and the mortgage (duration =
horizon), compute the mortgage payment, compute the transfer tax and withdraw
it from capital; `municipal_taxes` starts as the empty dict set in `__init__`
and `net_asset_position` does not exist yet (empty dict here). -/
def buySetup (s : Scenario K) : Except (SimError K) (BuyState K) :=
  match Asset.withdraw (Asset.make s.initial_capital s.monthly_rate s.today) s.downpayment with
  | .error e => .error e
  | .ok capital =>
    let house := Asset.make s.house_price s.monthly_housing_gr_rate s.today
    match Mortgage.compute_payment
        (Mortgage.make (s.house_price - s.downpayment) s.monthly_mortgage_rate s.horizon s.today) with
    | .error e => .error e
    | .ok mortgage =>
      let transfer_tax := compute_transfer_tax s.house_price
      match Asset.withdraw capital transfer_tax with
      | .error e => .error e
      | .ok capital2 =>
        .ok { capital := capital2, house := house, mortgage := mortgage,
              municipal_taxes := [], net_asset_position := [] }

/-- One iteration of the `simulate_buying` loop at date `d`: compute and cache
the municipal tax, assert `monthly_payment <= amount_available` (the message
reports `amount_to_pay` and `amount_available`), invest the surplus or withdraw
the shortfall of `amount_to_pay` against the budget, then update capital,
mortgage and house and recompute the net asset position. -/
def buyStep (s : Scenario K) (d : ℕ) (st : BuyState K) : Except (SimError K) (BuyState K) :=
  let st1 := computeMunicipalTaxes st d
  let amount_available := dictGet st1.capital.value d + dictGet s.housing_budget d
  let amount_to_pay := st1.mortgage.monthly_payment + dictGet st1.municipal_taxes d
  if st1.mortgage.monthly_payment ≤ amount_available then
    if amount_to_pay ≤ dictGet s.housing_budget d then
      .ok (computeNetAssetPosition
        { st1 with
          capital := Asset.update (Asset.invest st1.capital (dictGet s.housing_budget d - amount_to_pay)),
          mortgage := Mortgage.update st1.mortgage,
          house := Asset.update st1.house })
    else
      match Asset.withdraw st1.capital (amount_to_pay - dictGet s.housing_budget d) with
      | .error e => .error e
      | .ok c2 =>
        .ok (computeNetAssetPosition
          { st1 with
            capital := Asset.update c2,
            mortgage := Mortgage.update st1.mortgage,
            house := Asset.update st1.house })
  else .error (.mortgageTooExpensive amount_to_pay amount_available)

/-- The `for n_months in range(horizon)` loop of `simulate_buying`. -/
def buyLoop (s : Scenario K) : ℕ → ℕ → BuyState K → Except (SimError K) (BuyState K)
  | _, 0, st => .ok st
  | n, k + 1, st =>
    match buyStep s (s.today + n) st with
    | .error e => .error e
    | .ok st2 => buyLoop s (n + 1) k st2

/-- `Scenario.simulate_buying`: setup, then the loop over the whole horizon. -/
def Scenario.simulate_buying (s : Scenario K) : Except (SimError K) (BuyState K) :=
  match buySetup s with
  | .error e => .error e
  | .ok st => buyLoop s 0 s.horizon st

/-! ### Helper combinators used to state claims without binding large records -/

/-- `true` exactly on `Except.ok` results. -/
def isOkE {E A : Type} : Except E A → Bool
  | .ok _ => true
  | .error _ => false

/-- A boolean predicate holding on the payload of an `ok` result (vacuously
`true` on errors). -/
def okSat {E A : Type} (r : Except E A) (p : A → Bool) : Bool :=
  match r with
  | .ok a => p a
  | .error _ => true

/-- Run `simulate_renting` on a constructor result (error propagates). -/
def runRenting (r : Except (SimError K) (Scenario K)) : Except (SimError K) (Asset K) :=
  match r with
  | .error e => .error e
  | .ok s => Scenario.simulate_renting s

/-- Run `simulate_buying` on a constructor result (error propagates). -/
def runBuying (r : Except (SimError K) (Scenario K)) : Except (SimError K) (BuyState K) :=
  match r with
  | .error e => .error e
  | .ok s => Scenario.simulate_buying s

/-- `simulate_buying` truncated to the first `k` loop iterations (after setup);
`buyRun s s.horizon = Scenario.simulate_buying s`. -/
def buyRun (s : Scenario K) (k : ℕ) : Except (SimError K) (BuyState K) :=
  match buySetup s with
  | .error e => .error e
  | .ok st => buyLoop s 0 k st

theorem simulate_buying_eq_buyRun (s : Scenario K) :
    Scenario.simulate_buying s = buyRun s s.horizon := rfl

/-! ### Lookup and key structure of `create_monthly_series` -/

theorem dictGet_range_map :
    ∀ (h : ℕ) (f : ℕ → K) (t n : ℕ), n < h →
      dictGet ((List.range h).map (fun m => (t + m, f m))) (t + n) = f n := by
  intro h
  induction h with
  | zero => intro f t n hn; omega
  | succ h ih =>
    intro f t n hn
    rw [List.range_succ_eq_map]
    simp only [List.map_cons, List.map_map]
    rcases n with _ | n
    · simp [dictGet]
    · rw [dictGet_cons, if_neg (by omega : ¬(t + 0 = t + (n + 1)))]
      have hcomp : ((fun m => (t + m, f m)) ∘ Nat.succ) =
          (fun m => ((t + 1) + m, (fun j => f (j + 1)) m)) := by
        funext m
        simp only [Function.comp_apply, Nat.succ_eq_add_one]
        congr 1
        omega
      rw [hcomp]
      have hx := ih (fun j => f (j + 1)) (t + 1) n (by omega)
      rw [(by omega : (t + 1) + n = t + (n + 1))] at hx
      exact hx

theorem create_monthly_series_get (v r : K) (t h n : ℕ) (hn : n < h) :
    dictGet (create_monthly_series v t r h) (t + n) = v * (1 + r) ^ (n / 12) :=
  dictGet_range_map h (fun m => v * (1 + r) ^ (m / 12)) t n hn

theorem create_monthly_series_keys (v r : K) (t h : ℕ) :
    (create_monthly_series v t r h).map Prod.fst = List.range' t h := by
  unfold create_monthly_series
  rw [List.map_map, List.range'_eq_map_range]
  rfl

/-! ### Shape invariants: date pointers and contiguous keys -/

/-- After `n` completed months of a run started at `t`, an asset's date pointer
sits at `t + n` and its value dict covers exactly the months `t .. t + n`. -/
def AssetShape (a : Asset K) (t n : ℕ) : Prop :=
  a.date = t + n ∧ a.value.map Prod.fst = List.range' t (n + 1)

/-- Same shape statement for a mortgage's balance dict. -/
def MortgageShape (m : Mortgage K) (t n : ℕ) : Prop :=
  m.date = t + n ∧ m.value.map Prod.fst = List.range' t (n + 1)

theorem assetShape_invest (a : Asset K) (t n : ℕ) (x : K) (h : AssetShape a t n) :
    AssetShape (Asset.invest a x) t n := by
  obtain ⟨hd, hk⟩ := h
  refine ⟨hd, ?_⟩
  unfold Asset.invest
  rw [dictSet_keys_of_mem, hk]
  rw [hk, hd]
  exact List.mem_range'_1.mpr (by omega)

theorem assetShape_withdraw (a a2 : Asset K) (t n : ℕ) (x : K) (h : AssetShape a t n)
    (hw : Asset.withdraw a x = .ok a2) : AssetShape a2 t n := by
  obtain ⟨hd, hk⟩ := h
  unfold Asset.withdraw at hw
  by_cases hc : x ≤ dictGet a.value a.date
  · rw [if_pos hc] at hw
    cases hw
    refine ⟨hd, ?_⟩
    simp only
    rw [dictSet_keys_of_mem, hk]
    rw [hk, hd]
    exact List.mem_range'_1.mpr (by omega)
  · rw [if_neg hc] at hw
    cases hw

theorem assetShape_update (a : Asset K) (t n : ℕ) (h : AssetShape a t n) :
    AssetShape (Asset.update a) t (n + 1) := by
  obtain ⟨hd, hk⟩ := h
  constructor
  · show a.date + 1 = t + (n + 1)
    omega
  · show (dictSet a.value (a.date + 1) _).map Prod.fst = List.range' t (n + 2)
    rw [dictSet_of_not_mem]
    · rw [List.map_append, hk, hd]
      rw [(by omega : t + n + 1 = t + (n + 1))]
      exact (List.range'_1_concat t (n + 1)).symm
    · rw [hk, hd]
      intro hmem
      have := List.mem_range'_1.mp hmem
      omega

theorem mortgageShape_update (m : Mortgage K) (t n : ℕ) (h : MortgageShape m t n) :
    MortgageShape (Mortgage.update m) t (n + 1) := by
  obtain ⟨hd, hk⟩ := h
  have hmem : m.date ∈ m.value.map Prod.fst := by
    rw [hk, hd]; exact List.mem_range'_1.mpr (by omega)
  have hk1 : (dictSet m.value m.date (dictGet m.value m.date - m.monthly_payment)).map Prod.fst
      = List.range' t (n + 1) := by rw [dictSet_keys_of_mem _ _ _ hmem, hk]
  constructor
  · show m.date + 1 = t + (n + 1)
    omega
  · show (dictSet _ (m.date + 1) _).map Prod.fst = List.range' t (n + 2)
    rw [dictSet_of_not_mem]
    · rw [List.map_append, hk1, hd]
      rw [(by omega : t + n + 1 = t + (n + 1))]
      exact (List.range'_1_concat t (n + 1)).symm
    · rw [hk1, hd]
      intro hmem2
      have := List.mem_range'_1.mp hmem2
      omega

/-! ### Renting loop: shape, unreachable withdraw failure, and success -/

theorem rentStep_ok_shape (s : Scenario K) (t n : ℕ) (a a2 : Asset K)
    (h : AssetShape a t n) (hs : rentStep s (t + n) a = .ok a2) :
    AssetShape a2 t (n + 1) := by
  unfold rentStep at hs
  by_cases h1 : dictGet s.rent (t + n) ≤ dictGet a.value (t + n) + dictGet s.housing_budget (t + n)
  · rw [if_pos h1] at hs
    by_cases h2 : dictGet s.rent (t + n) ≤ dictGet s.housing_budget (t + n)
    · rw [if_pos h2] at hs
      cases hs
      exact assetShape_update _ _ _ (assetShape_invest _ _ _ _ h)
    · rw [if_neg h2] at hs
      rcases hw : Asset.withdraw a (dictGet s.rent (t + n) - dictGet s.housing_budget (t + n)) with e | a1
      · rw [hw] at hs; cases hs
      · rw [hw] at hs
        cases hs
        exact assetShape_update _ _ _ (assetShape_withdraw _ _ _ _ _ h hw)
  · rw [if_neg h1] at hs
    cases hs

theorem rentLoop_ok_shape (s : Scenario K) :
    ∀ (k n : ℕ) (a a2 : Asset K), AssetShape a s.today n →
      rentLoop s n k a = .ok a2 → AssetShape a2 s.today (n + k) := by
  intro k
  induction k with
  | zero =>
    intro n a a2 h hl
    unfold rentLoop at hl
    cases hl
    exact h
  | succ k ih =>
    intro n a a2 h hl
    unfold rentLoop at hl
    rcases hstep : rentStep s (s.today + n) a with e | a1
    · rw [hstep] at hl; cases hl
    · rw [hstep] at hl
      have h1 := rentStep_ok_shape s s.today n a a1 h hstep
      have := ih (n + 1) a1 a2 h1 hl
      rw [(by omega : n + 1 + k = n + (k + 1))] at this
      exact this

/-- The renting-loop withdraw can only be asked for an amount the affordability
assertion has already bounded: when the asset's date pointer agrees with the
loop date, `rentStep` never reports insufficient funds. -/
theorem rentStep_no_insufficientFunds (s : Scenario K) (d : ℕ) (a : Asset K)
    (hd : a.date = d) (e : K) :
    rentStep s d a ≠ .error (.insufficientFunds e) := by
  unfold rentStep
  by_cases h1 : dictGet s.rent d ≤ dictGet a.value d + dictGet s.housing_budget d
  · rw [if_pos h1]
    by_cases h2 : dictGet s.rent d ≤ dictGet s.housing_budget d
    · rw [if_pos h2]
      intro hc
      cases hc
    · rw [if_neg h2]
      unfold Asset.withdraw
      rw [hd, if_pos (by linarith)]
      intro hc
      cases hc
  · rw [if_neg h1]
    intro hc
    cases hc

theorem rentStep_ok_date (s : Scenario K) (d : ℕ) (a a2 : Asset K)
    (hs : rentStep s d a = .ok a2) : a2.date = a.date + 1 := by
  unfold rentStep at hs
  by_cases h1 : dictGet s.rent d ≤ dictGet a.value d + dictGet s.housing_budget d
  · rw [if_pos h1] at hs
    by_cases h2 : dictGet s.rent d ≤ dictGet s.housing_budget d
    · rw [if_pos h2] at hs
      cases hs
      rfl
    · rw [if_neg h2] at hs
      rcases hw : Asset.withdraw a (dictGet s.rent d - dictGet s.housing_budget d) with e | a1
      · rw [hw] at hs; cases hs
      · rw [hw] at hs
        cases hs
        unfold Asset.withdraw at hw
        by_cases hc : dictGet s.rent d - dictGet s.housing_budget d ≤ dictGet a.value a.date
        · rw [if_pos hc] at hw
          cases hw
          rfl
        · rw [if_neg hc] at hw
          cases hw
  · rw [if_neg h1] at hs
    cases hs

theorem rentLoop_no_insufficientFunds (s : Scenario K) :
    ∀ (k n : ℕ) (a : Asset K), a.date = s.today + n → ∀ (e : K),
      rentLoop s n k a ≠ .error (.insufficientFunds e) := by
  intro k
  induction k with
  | zero =>
    intro n a hd e hc
    unfold rentLoop at hc
    cases hc
  | succ k ih =>
    intro n a hd e hc
    unfold rentLoop at hc
    rcases hstep : rentStep s (s.today + n) a with e2 | a1
    · rw [hstep] at hc
      cases hc
      exact rentStep_no_insufficientFunds s (s.today + n) a hd e hstep
    · rw [hstep] at hc
      have hd1 : a1.date = s.today + (n + 1) := by
        rw [rentStep_ok_date s _ a a1 hstep, hd]
        omega
      exact ih (n + 1) a1 hd1 e hc

/-- If every month's rent is within that month's housing budget and the return
rate is nonnegative, the renting loop runs to completion from any nonnegative
capital. -/
theorem rentLoop_ok_of_rent_le_budget (s : Scenario K) (hr : 0 ≤ s.monthly_rate) :
    ∀ (k n : ℕ) (a : Asset K), a.date = s.today + n →
      a.monthly_rate = s.monthly_rate →
      0 ≤ dictGet a.value a.date →
      (∀ j, n ≤ j → j < n + k →
        dictGet s.rent (s.today + j) ≤ dictGet s.housing_budget (s.today + j)) →
      ∃ a2, rentLoop s n k a = .ok a2 := by
  intro k
  induction k with
  | zero =>
    intro n a _ _ _ _
    exact ⟨a, rfl⟩
  | succ k ih =>
    intro n a hd hrate hv hbud
    have hj : dictGet s.rent (s.today + n) ≤ dictGet s.housing_budget (s.today + n) :=
      hbud n (le_refl n) (by omega)
    have havail : dictGet s.rent (s.today + n) ≤
        dictGet a.value (s.today + n) + dictGet s.housing_budget (s.today + n) := by
      rw [hd] at hv
      linarith
    have hstep : rentStep s (s.today + n) a =
        .ok (Asset.update (Asset.invest a
          (dictGet s.housing_budget (s.today + n) - dictGet s.rent (s.today + n)))) := by
      unfold rentStep
      rw [if_pos havail, if_pos hj]
    have ha1 : (Asset.update (Asset.invest a
        (dictGet s.housing_budget (s.today + n) - dictGet s.rent (s.today + n)))).date
        = s.today + (n + 1) := by
      show (Asset.invest a _).date + 1 = s.today + (n + 1)
      unfold Asset.invest
      simp only
      omega
    have hrate1 : (Asset.update (Asset.invest a
        (dictGet s.housing_budget (s.today + n) - dictGet s.rent (s.today + n)))).monthly_rate
        = s.monthly_rate := by
      unfold Asset.update Asset.invest
      simpa using hrate
    have hv1 : 0 ≤ dictGet (Asset.update (Asset.invest a
        (dictGet s.housing_budget (s.today + n) - dictGet s.rent (s.today + n)))).value
        (Asset.update (Asset.invest a
          (dictGet s.housing_budget (s.today + n) - dictGet s.rent (s.today + n)))).date := by
      unfold Asset.update Asset.invest
      simp only [dictGet_dictSet_self]
      have hnn : 0 ≤ dictGet a.value a.date +
          (dictGet s.housing_budget (s.today + n) - dictGet s.rent (s.today + n)) := by
        linarith
      have h1r : (0:K) ≤ 1 + a.monthly_rate := by
        rw [hrate]; linarith
      exact mul_nonneg hnn h1r
    obtain ⟨a2, ha2⟩ := ih (n + 1)
      (Asset.update (Asset.invest a
        (dictGet s.housing_budget (s.today + n) - dictGet s.rent (s.today + n))))
      ha1 hrate1 hv1
      (fun j hj1 hj2 => hbud j (by omega) (by omega))
    refine ⟨a2, ?_⟩
    unfold rentLoop
    rw [hstep]
    exact ha2

/-! ### Buying loop: shape and net-asset-position consistency -/

/-- Joint shape of the buying state after `n` completed months started at `t`. -/
def BuyShape (st : BuyState K) (t n : ℕ) : Prop :=
  AssetShape st.capital t n ∧ AssetShape st.house t n ∧ MortgageShape st.mortgage t n

/-- The net-asset dict is exactly the capital dict rewritten pointwise to
`capital + house - mortgage` (what `compute_net_asset_position` builds). -/
def NetOk (st : BuyState K) : Prop :=
  st.net_asset_position = st.capital.value.map
    (fun p => (p.1, dictGet st.capital.value p.1 + dictGet st.house.value p.1
      - dictGet st.mortgage.value p.1))

theorem assetShape_make (v r : K) (t : ℕ) : AssetShape (Asset.make v r t) t 0 := by
  constructor
  · show t = t + 0
    omega
  · show [(t, v)].map Prod.fst = List.range' t 1
    rfl

theorem compute_payment_ok_fields (m m2 : Mortgage K)
    (h : Mortgage.compute_payment m = .ok m2) :
    m2.date = m.date ∧ m2.value = m.value ∧ m2.monthly_rate = m.monthly_rate := by
  unfold Mortgage.compute_payment at h
  by_cases h1 : 1 + m.monthly_rate = 0
  · rw [if_pos h1] at h; cases h
  · rw [if_neg h1] at h
    simp only at h
    by_cases h2 : 1 - 1 / (1 + m.monthly_rate) = 0
    · rw [if_pos h2] at h; cases h
    · rw [if_neg h2] at h
      by_cases h3 : (1 - (1 / (1 + m.monthly_rate)) ^ m.duration) / (1 - 1 / (1 + m.monthly_rate)) = 0
      · rw [if_pos h3] at h; cases h
      · rw [if_neg h3] at h
        cases h
        exact ⟨rfl, rfl, rfl⟩

theorem buySetup_shape (s : Scenario K) (st0 : BuyState K) (h : buySetup s = .ok st0) :
    BuyShape st0 s.today 0 ∧ st0.net_asset_position = [] := by
  unfold buySetup at h
  rcases hw1 : Asset.withdraw (Asset.make s.initial_capital s.monthly_rate s.today) s.downpayment
    with e | cap1
  · rw [hw1] at h; cases h
  · rw [hw1] at h
    simp only at h
    rcases hcp : Mortgage.compute_payment
        (Mortgage.make (s.house_price - s.downpayment) s.monthly_mortgage_rate s.horizon s.today)
      with e | mtg
    · rw [hcp] at h; cases h
    · rw [hcp] at h
      simp only at h
      rcases hw2 : Asset.withdraw cap1 (compute_transfer_tax s.house_price) with e | cap2
      · rw [hw2] at h; cases h
      · rw [hw2] at h
        simp only at h
        cases h
        have hcap1 : AssetShape cap1 s.today 0 :=
          assetShape_withdraw _ _ _ _ _ (assetShape_make _ _ _) hw1
        have hcap2 : AssetShape cap2 s.today 0 := assetShape_withdraw _ _ _ _ _ hcap1 hw2
        obtain ⟨hmd, hmv, _⟩ := compute_payment_ok_fields _ _ hcp
        refine ⟨⟨hcap2, assetShape_make _ _ _, ?_, ?_⟩, rfl⟩
        · show mtg.date = s.today + 0
          rw [hmd]
          show s.today = s.today + 0
          omega
        · show mtg.value.map Prod.fst = List.range' s.today 1
          rw [hmv]
          rfl

theorem buyStep_ok (s : Scenario K) (t n : ℕ) (st st2 : BuyState K)
    (h : BuyShape st t n) (hs : buyStep s (t + n) st = .ok st2) :
    BuyShape st2 t (n + 1) ∧ NetOk st2 := by
  obtain ⟨hcap, hhouse, hmtg⟩ := h
  unfold buyStep at hs
  simp only at hs
  by_cases h1 : (computeMunicipalTaxes st (t + n)).mortgage.monthly_payment ≤
      dictGet (computeMunicipalTaxes st (t + n)).capital.value (t + n) +
      dictGet s.housing_budget (t + n)
  · rw [if_pos h1] at hs
    by_cases h2 : (computeMunicipalTaxes st (t + n)).mortgage.monthly_payment +
        dictGet (computeMunicipalTaxes st (t + n)).municipal_taxes (t + n) ≤
        dictGet s.housing_budget (t + n)
    · rw [if_pos h2] at hs
      cases hs
      refine ⟨⟨?_, ?_, ?_⟩, rfl⟩
      · exact assetShape_update _ _ _ (assetShape_invest _ _ _ _ hcap)
      · exact assetShape_update _ _ _ hhouse
      · exact mortgageShape_update _ _ _ hmtg
    · rw [if_neg h2] at hs
      rcases hw : Asset.withdraw (computeMunicipalTaxes st (t + n)).capital
          ((computeMunicipalTaxes st (t + n)).mortgage.monthly_payment +
            dictGet (computeMunicipalTaxes st (t + n)).municipal_taxes (t + n) -
            dictGet s.housing_budget (t + n)) with e | c2
      · rw [hw] at hs; cases hs
      · rw [hw] at hs
        cases hs
        refine ⟨⟨?_, ?_, ?_⟩, rfl⟩
        · exact assetShape_update _ _ _ (assetShape_withdraw _ _ _ _ _ hcap hw)
        · exact assetShape_update _ _ _ hhouse
        · exact mortgageShape_update _ _ _ hmtg
  · rw [if_neg h1] at hs
    cases hs

theorem buyLoop_ok_shape (s : Scenario K) :
    ∀ (k n : ℕ) (st st2 : BuyState K), BuyShape st s.today n →
      buyLoop s n k st = .ok st2 →
      BuyShape st2 s.today (n + k) ∧ (1 ≤ k → NetOk st2) := by
  intro k
  induction k with
  | zero =>
    intro n st st2 h hl
    unfold buyLoop at hl
    cases hl
    exact ⟨(by simpa using h), fun hk => absurd hk (by omega)⟩
  | succ k ih =>
    intro n st st2 h hl
    unfold buyLoop at hl
    rcases hstep : buyStep s (s.today + n) st with e | st1
    · rw [hstep] at hl; cases hl
    · rw [hstep] at hl
      obtain ⟨hsh1, hnet1⟩ := buyStep_ok s s.today n st st1 h hstep
      obtain ⟨hsh2, hnet2⟩ := ih (n + 1) st1 st2 hsh1 hl
      refine ⟨?_, fun _ => ?_⟩
      · rw [(by omega : n + (k + 1) = n + 1 + k)]
        exact hsh2
      · rcases Nat.eq_zero_or_pos k with hk0 | hk1
        · subst hk0
          unfold buyLoop at hl
          cases hl
          exact hnet1
        · exact hnet2 hk1

/-! ### Mortgage update arithmetic -/

theorem mortgage_update_spec (m : Mortgage K) :
    (Mortgage.update m).date = m.date + 1 ∧
    dictGet (Mortgage.update m).value (m.date + 1) =
      (dictGet m.value m.date - m.monthly_payment) * (1 + m.monthly_rate) ∧
    (Mortgage.update m).monthly_payment = m.monthly_payment ∧
    (Mortgage.update m).monthly_rate = m.monthly_rate := by
  refine ⟨rfl, ?_, rfl, rfl⟩
  show dictGet (dictSet (dictSet m.value m.date (dictGet m.value m.date - m.monthly_payment))
      (m.date + 1)
      (dictGet (dictSet m.value m.date (dictGet m.value m.date - m.monthly_payment)) m.date
        * (1 + m.monthly_rate))) (m.date + 1) = _
  rw [dictGet_dictSet_self, dictGet_dictSet_self]

/-- Claim C6: `Mortgage.update` stores `(current balance - monthly_payment) *
(1 + monthly_rate)` — payment subtracted before interest — under the next
month's date and advances the date pointer by one month. -/
theorem claim_C6 (m : Mortgage K) :
    (Mortgage.update m).date = m.date + 1 ∧
    dictGet (Mortgage.update m).value (m.date + 1) =
      (dictGet m.value m.date - m.monthly_payment) * (1 + m.monthly_rate) :=
  ⟨(mortgage_update_spec m).1, (mortgage_update_spec m).2.1⟩

/-- Claim C8: `Asset.withdraw` fails exactly when the requested amount exceeds
the value at the asset's current date, reporting the shortfall
`amount - value[date]`; otherwise it subtracts exactly `amount` from the
current date's entry and changes nothing else (same date, same rate, every
other date's value untouched). -/
theorem claim_C8 (a : Asset K) (amount : K) :
    (Asset.withdraw a amount
        = .error (.insufficientFunds (amount - dictGet a.value a.date))
      ↔ dictGet a.value a.date < amount) ∧
    (amount ≤ dictGet a.value a.date →
      Asset.withdraw a amount =
        .ok { a with value := dictSet a.value a.date (dictGet a.value a.date - amount) }) ∧
    dictGet (dictSet a.value a.date (dictGet a.value a.date - amount)) a.date
      = dictGet a.value a.date - amount ∧
    (∀ d, d ≠ a.date →
      dictGet (dictSet a.value a.date (dictGet a.value a.date - amount)) d
        = dictGet a.value d) := by
  refine ⟨?_, ?_, dictGet_dictSet_self _ _ _, fun d hd => dictGet_dictSet_ne _ _ _ _ hd⟩
  · unfold Asset.withdraw
    by_cases hc : amount ≤ dictGet a.value a.date
    · rw [if_pos hc]
      exact ⟨fun hcon => Except.noConfusion hcon, fun hlt => absurd hlt (not_lt.mpr hc)⟩
    · rw [if_neg hc]
      exact ⟨fun _ => not_le.mp hc, fun _ => rfl⟩
  · intro hc
    unfold Asset.withdraw
    rw [if_pos hc]

/-- Witness for C8 at the asset `⟨date 0, {0: 100}, rate 0⟩` over `ℚ`: a
withdrawal of 200 fails with shortfall 100, a withdrawal of 30 leaves `{0: 70}`,
and the month-1 value (absent, i.e. default) is untouched by the subtraction. -/
theorem claim_C8_witness :
    Asset.withdraw (⟨0, [(0, (100:ℚ))], 0⟩ : Asset ℚ) 200
        = .error (.insufficientFunds 100) ∧
    Asset.withdraw (⟨0, [(0, (100:ℚ))], 0⟩ : Asset ℚ) 30
        = .ok ⟨0, [(0, (70:ℚ))], 0⟩ ∧
    dictGet (dictSet [(0, (100:ℚ))] 0 (dictGet [(0, (100:ℚ))] 0 - 30)) 1
        = dictGet [(0, (100:ℚ))] 1 := by
  refine ⟨?_, ?_, ?_⟩
  · have h := (claim_C8 (⟨0, [(0, (100:ℚ))], 0⟩ : Asset ℚ) 200).1.mpr (by norm_num [dictGet])
    rw [h]
    norm_num [dictGet]
  · have h := (claim_C8 (⟨0, [(0, (100:ℚ))], 0⟩ : Asset ℚ) 30).2.1 (by norm_num [dictGet])
    rw [h]
    norm_num [dictGet, dictSet]
  · exact (claim_C8 (⟨0, [(0, (100:ℚ))], 0⟩ : Asset ℚ) 30).2.2.2 1 (by norm_num)

/-! ### Claim C10: the renting loop never hits the withdraw assertion -/

/-- `true` exactly when `simulate_renting` fails with the `Asset.withdraw`
insufficient-funds assertion. -/
def rentingInsufficient (s : Scenario K) : Bool :=
  match Scenario.simulate_renting s with
  | .error (.insufficientFunds _) => true
  | _ => false

/-- Claim C10: in `simulate_renting`, whenever the rent-affordability assertion
passes, the withdraw of `rent - housing_budget` cannot fail: the
insufficient-funds error branch is unreachable from the renting loop, for every
scenario. -/
theorem claim_C10 (s : Scenario K) : rentingInsufficient s = false := by
  unfold rentingInsufficient
  rcases h : Scenario.simulate_renting s with e | a
  · cases e with
    | invalidData => rfl
    | insufficientFunds x =>
      exfalso
      unfold Scenario.simulate_renting at h
      exact rentLoop_no_insufficientFunds s s.horizon 0
        (Asset.make s.initial_capital s.monthly_rate s.today)
        (by show s.today = s.today + 0; omega) x h
    | rentTooExpensive r1 r2 => rfl
    | mortgageTooExpensive m1 m2 => rfl
    | zeroDivision => rfl
  · rfl

/-! ### Claim C5: transfer tax -/

/-- Modelled from the claim's wording (not from source code): the progressive
bracket sum — over brackets `[0,50000]` at 0.5%, `(50000,250000]` at 1.0%,
`(250000,500000]` at 1.5%, `(500000,1000000]` at 2.0% and `(1000000,∞)` at
2.5%, the sum of `rate * (min(house_price, upper) - lower)` over every bracket
whose lower bound `house_price` exceeds (`min(p, ∞) = p` in the open-ended
bracket). Used only to compare against `compute_transfer_tax`. -/
def transfer_tax_brackets (p : K) : K :=
  (if 0 < p then (5/1000) * (min p 50000 - 0) else 0) +
  (if 50000 < p then (1/100) * (min p 250000 - 50000) else 0) +
  (if 250000 < p then (15/1000) * (min p 500000 - 250000) else 0) +
  (if 500000 < p then (2/100) * (min p 1000000 - 500000) else 0) +
  (if 1000000 < p then (25/1000) * (p - 1000000) else 0)

theorem compute_transfer_tax_eq_brackets (p : K) :
    compute_transfer_tax p = transfer_tax_brackets p := by
  unfold compute_transfer_tax transfer_tax_brackets
  by_cases h0 : (0:K) < p
  · by_cases h1 : (50000:K) < p
    · by_cases h2 : (250000:K) < p
      · by_cases h3 : (500000:K) < p
        · by_cases h4 : (1000000:K) < p
          · simp only [h0, h1, h2, h3, h4, if_true]
            ring
          · simp only [h0, h1, h2, h3, h4, if_true, if_false]
            ring
        · have h4 : ¬(1000000:K) < p := fun hc => h3 (by linarith)
          simp only [h0, h1, h2, h3, h4, if_true, if_false]
          ring
      · have h3 : ¬(500000:K) < p := fun hc => h2 (by linarith)
        have h4 : ¬(1000000:K) < p := fun hc => h2 (by linarith)
        simp only [h0, h1, h2, h3, h4, if_true, if_false]
        ring
    · have h2 : ¬(250000:K) < p := fun hc => h1 (by linarith)
      have h3 : ¬(500000:K) < p := fun hc => h1 (by linarith)
      have h4 : ¬(1000000:K) < p := fun hc => h1 (by linarith)
      simp only [h0, h1, h2, h3, h4, if_true, if_false]
      ring
  · have h1 : ¬(50000:K) < p := fun hc => h0 (by linarith)
    have h2 : ¬(250000:K) < p := fun hc => h0 (by linarith)
    have h3 : ¬(500000:K) < p := fun hc => h0 (by linarith)
    have h4 : ¬(1000000:K) < p := fun hc => h0 (by linarith)
    simp only [h0, h1, h2, h3, h4, if_true, if_false]
    ring

theorem compute_transfer_tax_at_50000 : compute_transfer_tax (50000 : K) = 250 := by
  unfold compute_transfer_tax
  rw [if_pos (by norm_num : (0:K) < 50000), if_neg (by norm_num : ¬(50000:K) < 50000)]
  rw [min_self]
  ring

theorem compute_transfer_tax_at_0 : compute_transfer_tax (0 : K) = 0 := by
  unfold compute_transfer_tax
  rw [if_neg (lt_irrefl (0 : K))]

theorem compute_transfer_tax_at_400000 : compute_transfer_tax (400000 : K) = 4500 := by
  unfold compute_transfer_tax
  rw [if_pos (by norm_num : (0:K) < 400000), if_pos (by norm_num : (50000:K) < 400000),
    if_pos (by norm_num : (250000:K) < 400000), if_neg (by norm_num : ¬(500000:K) < 400000),
    min_eq_right (by norm_num : (50000:K) ≤ 400000),
    min_eq_right (by norm_num : (250000:K) ≤ 400000),
    min_eq_left (by norm_num : (400000:K) ≤ 500000)]
  ring

/-- Claim C5: `compute_transfer_tax` equals the progressive bracket-sum formula
for every price, and in particular yields `250` at exactly `50000` and `0` at
`0`. -/
theorem claim_C5 :
    (∀ p : K, compute_transfer_tax p = transfer_tax_brackets p) ∧
    compute_transfer_tax (50000 : K) = 250 ∧ compute_transfer_tax (0 : K) = 0 :=
  ⟨compute_transfer_tax_eq_brackets, compute_transfer_tax_at_50000, compute_transfer_tax_at_0⟩

/-! ### Claim C7: stepped growth series -/

/-- Claim C7: a series built by `create_monthly_series` holds
`v * (1 + r) ^ (n / 12)` at month index `n`; two indices in the same 12-month
bracket have equal values; crossing a 12-month boundary multiplies the value by
exactly `1 + r`. -/
theorem claim_C7 (v r : K) (t h : ℕ) :
    (∀ n, n < h → dictGet (create_monthly_series v t r h) (t + n)
      = v * (1 + r) ^ (n / 12)) ∧
    (∀ n1 n2, n1 < h → n2 < h → n1 / 12 = n2 / 12 →
      dictGet (create_monthly_series v t r h) (t + n1)
        = dictGet (create_monthly_series v t r h) (t + n2)) ∧
    (∀ n, n + 1 < h → (n + 1) % 12 = 0 →
      dictGet (create_monthly_series v t r h) (t + (n + 1))
        = (1 + r) * dictGet (create_monthly_series v t r h) (t + n)) := by
  refine ⟨fun n hn => create_monthly_series_get v r t h n hn, ?_, ?_⟩
  · intro n1 n2 h1 h2 h12
    rw [create_monthly_series_get v r t h n1 h1, create_monthly_series_get v r t h n2 h2, h12]
  · intro n hn hmod
    rw [create_monthly_series_get v r t h (n + 1) hn,
      create_monthly_series_get v r t h n (by omega)]
    have hdiv : (n + 1) / 12 = n / 12 + 1 := by omega
    rw [hdiv, pow_succ]
    ring

/-- Witness for C7 over `ℚ` with `v = 1000`, `r = 1/10`, `h = 14`: the value at
month 3, equality of months 0 and 11 (same year), and the year boundary at
month 12. -/
theorem claim_C7_witness :
    dictGet (create_monthly_series (1000:ℚ) 0 (1/10) 14) (0 + 3)
      = 1000 * (1 + 1/10) ^ (3 / 12) ∧
    dictGet (create_monthly_series (1000:ℚ) 0 (1/10) 14) (0 + 0)
      = dictGet (create_monthly_series (1000:ℚ) 0 (1/10) 14) (0 + 11) ∧
    dictGet (create_monthly_series (1000:ℚ) 0 (1/10) 14) (0 + (11 + 1))
      = (1 + 1/10) * dictGet (create_monthly_series (1000:ℚ) 0 (1/10) 14) (0 + 11) :=
  ⟨(claim_C7 1000 (1/10) 0 14).1 3 (by decide),
   (claim_C7 1000 (1/10) 0 14).2.1 0 11 (by decide) (by decide) (by decide),
   (claim_C7 1000 (1/10) 0 14).2.2 11 (by decide) (by decide)⟩

/-! ### Claim C2: zero-rate mortgage -/

/-- At `monthly_rate = 0` the annuity formula degenerates: `discount_factor = 1`
and `1 - discount_factor = 0`, so the `coeff` division raises
`ZeroDivisionError`. -/
theorem compute_payment_zero_rate (P : K) (dur : ℕ) :
    Mortgage.compute_payment (Mortgage.make P 0 dur 0) = .error .zeroDivision := by
  unfold Mortgage.compute_payment Mortgage.make
  rw [if_neg (by norm_num : ¬((1:K) + 0 = 0)), if_pos (by norm_num : (1:K) - 1/(1+0) = 0)]

theorem zero_rate_step (m : Mortgage K) (j : ℕ) (P q : K)
    (hd : m.date = j) (hp : m.monthly_payment = q) (hr : m.monthly_rate = 0)
    (hv : dictGet m.value j = P - (j : K) * q) :
    (Mortgage.update m).date = j + 1 ∧ (Mortgage.update m).monthly_payment = q ∧
    (Mortgage.update m).monthly_rate = 0 ∧
    dictGet (Mortgage.update m).value (j + 1) = P - (((j + 1 : ℕ)) : K) * q := by
  obtain ⟨ud, uv, up, ur⟩ := mortgage_update_spec m
  refine ⟨by rw [ud, hd], by rw [up, hp], by rw [ur, hr], ?_⟩
  rw [hd] at uv
  rw [uv, hv, hp, hr]
  push_cast
  ring

theorem zero_rate_iterate (P q : K) (dur : ℕ) :
    ∀ j : ℕ,
      ((Mortgage.update)^[j] { Mortgage.make P 0 dur 0 with monthly_payment := q }).date = j ∧
      ((Mortgage.update)^[j] { Mortgage.make P 0 dur 0 with monthly_payment := q }).monthly_payment = q ∧
      ((Mortgage.update)^[j] { Mortgage.make P 0 dur 0 with monthly_payment := q }).monthly_rate = 0 ∧
      dictGet ((Mortgage.update)^[j] { Mortgage.make P 0 dur 0 with monthly_payment := q }).value j
        = P - (j : K) * q := by
  intro j
  induction j with
  | zero =>
    refine ⟨rfl, rfl, rfl, ?_⟩
    show dictGet [(0, P)] 0 = P - ((0 : ℕ) : K) * q
    simp [dictGet]
  | succ j ih =>
    obtain ⟨hd, hp, hr, hv⟩ := ih
    rw [Function.iterate_succ_apply']
    exact zero_rate_step _ j P q hd hp hr hv

/-- Claim C2 (amended): at `monthly_rate = 0`, `compute_payment` does not
produce `initial_principal / duration` — it raises `ZeroDivisionError`
(`coeff` is `0/0`); however, if the monthly payment is set directly to
`initial_principal / duration`, the zero-rate balance after `duration` updates
is exactly zero at the final date. -/
theorem claim_C2 (P : K) (dur : ℕ) (hdur : 0 < dur) :
    Mortgage.compute_payment (Mortgage.make P 0 dur 0) = .error .zeroDivision ∧
    ((Mortgage.update)^[dur]
      { Mortgage.make P 0 dur 0 with monthly_payment := P / (dur : K) }).date = dur ∧
    dictGet ((Mortgage.update)^[dur]
      { Mortgage.make P 0 dur 0 with monthly_payment := P / (dur : K) }).value dur = 0 := by
  obtain ⟨hd, _, _, hv⟩ := zero_rate_iterate P (P / (dur : K)) dur dur
  refine ⟨compute_payment_zero_rate P dur, hd, ?_⟩
  rw [hv]
  have hne : ((dur : K)) ≠ 0 := Nat.cast_ne_zero.mpr (Nat.pos_iff_ne_zero.mp hdur)
  field_simp

/-- Counterexample to C2 as stated: for `initial_principal = 1200`,
`duration = 12`, `monthly_rate = 0`, `compute_payment` raises
`ZeroDivisionError` instead of producing `1200 / 12 = 100`. -/
theorem claim_C2_counterexample :
    Mortgage.compute_payment (Mortgage.make (1200:ℚ) 0 12 0) = .error .zeroDivision ∧
    ∀ m2 : Mortgage ℚ, Mortgage.compute_payment (Mortgage.make (1200:ℚ) 0 12 0) ≠ .ok m2 := by
  constructor
  · exact compute_payment_zero_rate 1200 12
  · intro m2 hc
    rw [compute_payment_zero_rate 1200 12] at hc
    exact Except.noConfusion hc

/-- Witness for the amended C2 at `P = 1200`, `duration = 12` over `ℚ`. -/
theorem claim_C2_witness :
    Mortgage.compute_payment (Mortgage.make (1200:ℚ) 0 12 0) = .error .zeroDivision ∧
    ((Mortgage.update)^[12]
      { Mortgage.make (1200:ℚ) 0 12 0 with monthly_payment := 1200 / ((12:ℕ) : ℚ) }).date = 12 ∧
    dictGet ((Mortgage.update)^[12]
      { Mortgage.make (1200:ℚ) 0 12 0 with monthly_payment := 1200 / ((12:ℕ) : ℚ) }).value 12 = 0 :=
  claim_C2 1200 12 (by decide)

/-! ### Claims C3 and C4: series lengths / keys and net-worth consistency -/

theorem make_with_rates_ok (today : ℕ)
    (capital housing_budget monthly_rent house_price downpayment
      housing_gr_rate rent_gr_rate mortgage_rate return_rate : K) (horizon : ℕ)
    (monthly_rate monthly_housing_gr_rate monthly_mortgage_rate : K) (s : Scenario K)
    (h : Scenario.make_with_rates today capital housing_budget monthly_rent house_price
      downpayment housing_gr_rate rent_gr_rate mortgage_rate return_rate horizon
      monthly_rate monthly_housing_gr_rate monthly_mortgage_rate = .ok s) :
    s = { today := today
          initial_capital := capital
          horizon := horizon
          rent := create_monthly_series monthly_rent today rent_gr_rate horizon
          housing_budget := create_monthly_series housing_budget today housing_gr_rate horizon
          house_price := house_price
          downpayment := downpayment
          housing_gr_rate := housing_gr_rate
          rent_gr_rate := rent_gr_rate
          mortgage_rate := mortgage_rate
          return_rate := return_rate
          monthly_rate := monthly_rate
          monthly_housing_gr_rate := monthly_housing_gr_rate
          monthly_mortgage_rate := monthly_mortgage_rate } := by
  unfold Scenario.make_with_rates at h
  simp only at h
  split at h
  · cases h
    rfl
  · cases h

theorem renting_ok_keys (s : Scenario K) (a : Asset K)
    (h : Scenario.simulate_renting s = .ok a) :
    a.value.map Prod.fst = List.range' s.today (s.horizon + 1) := by
  unfold Scenario.simulate_renting at h
  have hsh := rentLoop_ok_shape s s.horizon 0 _ a (assetShape_make _ _ _) h
  rw [Nat.zero_add] at hsh
  exact hsh.2

theorem buying_ok_result (s : Scenario K) (st : BuyState K)
    (h : Scenario.simulate_buying s = .ok st) :
    BuyShape st s.today s.horizon ∧
    (s.horizon = 0 → st.net_asset_position = []) ∧
    (1 ≤ s.horizon → NetOk st) := by
  unfold Scenario.simulate_buying at h
  rcases hsetup : buySetup s with e | st0
  · rw [hsetup] at h; cases h
  · rw [hsetup] at h
    obtain ⟨sh0, hnet0⟩ := buySetup_shape s st0 hsetup
    obtain ⟨shape, hnet⟩ := buyLoop_ok_shape s s.horizon 0 st0 st sh0 h
    rw [Nat.zero_add] at shape
    refine ⟨shape, ?_, hnet⟩
    intro h0
    rw [h0] at h
    unfold buyLoop at h
    cases h
    exact hnet0

theorem netOk_keys (st : BuyState K) (h : NetOk st) :
    st.net_asset_position.map Prod.fst = st.capital.value.map Prod.fst := by
  rw [h, List.map_map]
  rfl

/-- Claim C3 (amended): for every scenario the constructor accepts, the `rent`
and `housing_budget` series cover exactly `horizon` consecutive months starting
at `today`, while the capital series of a completed renting run and the
capital, house and mortgage series of a completed buying run cover `horizon + 1`
consecutive months (`today .. today + horizon`); the buying run's
net-asset-position series shares the capital keys (empty when `horizon = 0`). -/
theorem claim_C3 (today : ℕ)
    (capital housing_budget monthly_rent house_price downpayment
      housing_gr_rate rent_gr_rate mortgage_rate return_rate : K) (horizon : ℕ)
    (monthly_rate monthly_housing_gr_rate monthly_mortgage_rate : K) :
    okSat (Scenario.make_with_rates today capital housing_budget monthly_rent house_price
        downpayment housing_gr_rate rent_gr_rate mortgage_rate return_rate horizon
        monthly_rate monthly_housing_gr_rate monthly_mortgage_rate)
      (fun s =>
        decide (s.rent.map Prod.fst = List.range' s.today s.horizon) &&
        decide (s.housing_budget.map Prod.fst = List.range' s.today s.horizon) &&
        okSat (Scenario.simulate_renting s)
          (fun a => decide (a.value.map Prod.fst = List.range' s.today (s.horizon + 1))) &&
        okSat (Scenario.simulate_buying s)
          (fun st =>
            decide (st.capital.value.map Prod.fst = List.range' s.today (s.horizon + 1)) &&
            decide (st.house.value.map Prod.fst = List.range' s.today (s.horizon + 1)) &&
            decide (st.mortgage.value.map Prod.fst = List.range' s.today (s.horizon + 1)) &&
            decide (st.net_asset_position.map Prod.fst =
              if s.horizon = 0 then [] else List.range' s.today (s.horizon + 1)))) = true := by
  rcases hmk : Scenario.make_with_rates today capital housing_budget monthly_rent house_price
      downpayment housing_gr_rate rent_gr_rate mortgage_rate return_rate horizon
      monthly_rate monthly_housing_gr_rate monthly_mortgage_rate with e | s
  · rfl
  · have hs := make_with_rates_ok today capital housing_budget monthly_rent house_price
      downpayment housing_gr_rate rent_gr_rate mortgage_rate return_rate horizon
      monthly_rate monthly_housing_gr_rate monthly_mortgage_rate s hmk
    show (_ && _ && _ && _) = true
    simp only [Bool.and_eq_true, decide_eq_true_eq]
    refine ⟨⟨⟨?_, ?_⟩, ?_⟩, ?_⟩
    · rw [hs]
      exact create_monthly_series_keys monthly_rent rent_gr_rate today horizon
    · rw [hs]
      exact create_monthly_series_keys housing_budget housing_gr_rate today horizon
    · rcases hrent : Scenario.simulate_renting s with e2 | a
      · rfl
      · show decide _ = true
        rw [decide_eq_true_eq]
        exact renting_ok_keys s a hrent
    · rcases hbuy : Scenario.simulate_buying s with e2 | st
      · rfl
      · show (_ && _ && _ && _) = true
        simp only [Bool.and_eq_true, decide_eq_true_eq]
        obtain ⟨⟨hcap, hhouse, hmtg⟩, hnet0, hnet⟩ := buying_ok_result s st hbuy
        refine ⟨⟨⟨hcap.2, hhouse.2⟩, hmtg.2⟩, ?_⟩
        rcases Nat.eq_zero_or_pos s.horizon with h0 | h1
        · rw [if_pos h0, hnet0 h0]
          rfl
        · rw [if_neg (by omega)]
          rw [netOk_keys st (hnet h1)]
          exact hcap.2

/-- A concrete valid scenario over `ℚ` with `horizon = 2` (all rates zero). -/
def sC3 : Scenario ℚ :=
  { today := 0, initial_capital := 100000, horizon := 2,
    rent := create_monthly_series 1000 0 0 2,
    housing_budget := create_monthly_series 2000 0 0 2,
    house_price := 100000, downpayment := 20000,
    housing_gr_rate := 0, rent_gr_rate := 0, mortgage_rate := 0, return_rate := 0,
    monthly_rate := 0, monthly_housing_gr_rate := 0, monthly_mortgage_rate := 0 }

/-- Number of entries of the capital series a completed renting run produces. -/
def rentingSeriesLen (s : Scenario ℚ) : ℕ :=
  match Scenario.simulate_renting s with
  | .ok a => a.value.length
  | .error _ => 0

/-- Counterexample to C3 as stated: the valid scenario `sC3` has
`horizon = 2`, but its completed renting simulation leaves a capital series
with 3 entries (months 0, 1 and 2), not `horizon` entries. -/
theorem claim_C3_counterexample :
    sC3.check_data = true ∧ sC3.horizon = 2 ∧ rentingSeriesLen sC3 = 3 := by
  refine ⟨?_, rfl, ?_⟩
  · norm_num [sC3, Scenario.check_data]
  · norm_num [rentingSeriesLen, sC3, Scenario.simulate_renting, rentLoop, rentStep,
      Asset.make, Asset.invest, Asset.update, Asset.withdraw, create_monthly_series,
      dictGet, dictSet, List.range_succ]

/-- `true` when a buying-simulation result satisfies
`net_asset_position[d] = capital[d] + house[d] - mortgage[d]` at every date of
the capital series (vacuously on errors). -/
def netConsistent (r : Except (SimError K) (BuyState K)) : Bool :=
  match r with
  | .ok st => (st.capital.value.map Prod.fst).all
      (fun d => decide (dictGet st.net_asset_position d =
        dictGet st.capital.value d + dictGet st.house.value d - dictGet st.mortgage.value d))
  | .error _ => true

/-- Claim C4: after any positive number of months of the buying loop, the
net-asset-position series equals `capital + house - mortgage` pointwise at
every date of the capital series; `simulate_buying` itself is the full-horizon
run. -/
theorem claim_C4 (s : Scenario K) (k : ℕ) :
    netConsistent (buyRun s (k + 1)) = true ∧
    Scenario.simulate_buying s = buyRun s s.horizon := by
  refine ⟨?_, simulate_buying_eq_buyRun s⟩
  unfold buyRun
  rcases hsetup : buySetup s with e | st0
  · rfl
  · simp only
    rcases hloop : buyLoop s 0 (k + 1) st0 with e | st
    · rfl
    · obtain ⟨sh0, _⟩ := buySetup_shape s st0 hsetup
      obtain ⟨shape, hnet⟩ := buyLoop_ok_shape s (k + 1) 0 st0 st sh0 hloop
      have hN := hnet (by omega)
      unfold netConsistent
      rw [List.all_eq_true]
      intro d hd
      rw [decide_eq_true_eq]
      rw [hN]
      exact dictGet_map_keyed st.capital.value
        (fun x => dictGet st.capital.value x + dictGet st.house.value x
          - dictGet st.mortgage.value x) d hd

/-! ### Facts about `compute_monthly_rate` (real 12th roots) -/

theorem compute_monthly_rate_nonneg (y : ℝ) (hy : 0 ≤ y) : 0 ≤ compute_monthly_rate y := by
  unfold compute_monthly_rate
  have h1 : (1:ℝ) ≤ (1 + y) ^ ((1:ℝ)/12) := by
    calc (1:ℝ) = 1 ^ ((1:ℝ)/12) := (Real.one_rpow _).symm
    _ ≤ (1 + y) ^ ((1:ℝ)/12) := Real.rpow_le_rpow (by norm_num) (by linarith) (by norm_num)
  linarith

theorem compute_monthly_rate_pos (y : ℝ) (hy : 0 < y) : 0 < compute_monthly_rate y := by
  unfold compute_monthly_rate
  have h1 : (1:ℝ) < (1 + y) ^ ((1:ℝ)/12) :=
    (Real.one_lt_rpow_iff_of_pos (by linarith)).mpr (Or.inl ⟨by linarith, by norm_num⟩)
  linarith

/-- The monthly rate the constructor derives from the annual rate
`(1+q)^12 - 1` is exactly `q`: the two are inverse for `0 ≤ 1 + q`. -/
theorem compute_monthly_rate_of_pow (q : ℝ) (hq : 0 ≤ 1 + q) :
    compute_monthly_rate ((1 + q) ^ (12:ℕ) - 1) = q := by
  unfold compute_monthly_rate
  have h0 : (1:ℝ) + ((1 + q) ^ (12:ℕ) - 1) = (1 + q) ^ (12:ℕ) := by ring
  rw [h0]
  have h1 : ((1:ℝ)/12) = (((12:ℕ):ℝ))⁻¹ := by norm_num
  rw [h1, Real.pow_rpow_inv_natCast hq (by norm_num)]
  ring

/-! ### Claim C1: the end-to-end scenario -/

/-- The C1 scenario record (capital 100000, budget 2000, rent 1500, house
400000, downpayment 80000, both growth rates 2%/yr, horizon 12), parametric in
the three derived monthly rates so the same record serves any field `K`. -/
def c1s (rret rh rm : K) : Scenario K :=
  { today := 0, initial_capital := 100000, horizon := 12,
    rent := create_monthly_series 1500 0 (2/100) 12,
    housing_budget := create_monthly_series 2000 0 (2/100) 12,
    house_price := 400000, downpayment := 80000,
    housing_gr_rate := 2/100, rent_gr_rate := 2/100, mortgage_rate := 4/100,
    return_rate := 5/100,
    monthly_rate := rret, monthly_housing_gr_rate := rh, monthly_mortgage_rate := rm }

@[simp] theorem c1s_today (rret rh rm : K) : (c1s rret rh rm).today = 0 := rfl

@[simp] theorem c1s_initial_capital (rret rh rm : K) :
    (c1s rret rh rm).initial_capital = 100000 := rfl

@[simp] theorem c1s_horizon (rret rh rm : K) : (c1s rret rh rm).horizon = 12 := rfl

@[simp] theorem c1s_house_price (rret rh rm : K) :
    (c1s rret rh rm).house_price = 400000 := rfl

@[simp] theorem c1s_downpayment (rret rh rm : K) :
    (c1s rret rh rm).downpayment = 80000 := rfl

@[simp] theorem c1s_rent_series (rret rh rm : K) :
    (c1s rret rh rm).rent = create_monthly_series 1500 0 (2/100) 12 := rfl

@[simp] theorem c1s_budget_series (rret rh rm : K) :
    (c1s rret rh rm).housing_budget = create_monthly_series 2000 0 (2/100) 12 := rfl

@[simp] theorem c1s_monthly_rate (rret rh rm : K) :
    (c1s rret rh rm).monthly_rate = rret := rfl

@[simp] theorem c1s_monthly_housing (rret rh rm : K) :
    (c1s rret rh rm).monthly_housing_gr_rate = rh := rfl

@[simp] theorem c1s_monthly_mortgage (rret rh rm : K) :
    (c1s rret rh rm).monthly_mortgage_rate = rm := rfl

theorem c1_make :
    Scenario.make 0 100000 2000 1500 400000 80000 (2/100) (2/100) (4/100) (5/100) 12
      = .ok (c1s (compute_monthly_rate (5/100)) (compute_monthly_rate (2/100))
          (compute_monthly_rate (4/100))) := by
  unfold Scenario.make Scenario.make_with_rates c1s
  simp only
  rw [if_pos]
  · unfold Scenario.check_data
    rw [Bool.and_eq_true, decide_eq_true_eq, decide_eq_true_eq]
    constructor
    · norm_num
    · norm_num

@[simp] theorem dictGet_single (t : ℕ) (v : K) : dictGet [(t, v)] t = v := by
  simp [dictGet]

theorem withdraw_singleton (t : ℕ) (v r x : K) (hx : x ≤ v) :
    Asset.withdraw (⟨t, [(t, v)], r⟩ : Asset K) x = .ok ⟨t, [(t, v - x)], r⟩ := by
  unfold Asset.withdraw
  simp only [dictGet_single]
  rw [if_pos hx]
  simp [dictSet]

@[simp] theorem dictSet_nil (k : ℕ) (v : K) : dictSet ([] : List (ℕ × K)) k v = [(k, v)] := rfl

/-- For a positive monthly rate, `compute_payment` succeeds with the annuity
payment, whose `coeff = (1 - d^duration)/(1 - d)` is the geometric sum
`1 + d + ... + d^(duration-1)`, hence positive and at most `duration`. -/
theorem compute_payment_pos_rate (P rm : K) (dur t : ℕ) (hm : 0 < rm) (hdur : dur ≠ 0) :
    Mortgage.compute_payment (Mortgage.make P rm dur t)
      = .ok ⟨t, t, rm, P, [(t, P)], dur,
          P / ((1 - (1/(1+rm)) ^ dur) / (1 - 1/(1+rm)))⟩ ∧
    0 < (1 - (1/(1+rm)) ^ dur) / (1 - 1/(1+rm)) ∧
    (1 - (1/(1+rm)) ^ dur) / (1 - 1/(1+rm)) ≤ (dur : K) := by
  have h1 : (0:K) < 1 + rm := by linarith
  have hd0 : (0:K) < 1/(1+rm) := by positivity
  have hd1 : 1/(1+rm) < (1:K) := by
    rw [div_lt_one h1]
    linarith
  have hpow : (1/(1+rm) : K) ^ dur < 1 := pow_lt_one₀ hd0.le hd1 hdur
  have hnum : (0:K) < 1 - (1/(1+rm)) ^ dur := by linarith
  have hden : (0:K) < 1 - 1/(1+rm) := by linarith
  have hcoeff : (0:K) < (1 - (1/(1+rm)) ^ dur) / (1 - 1/(1+rm)) := div_pos hnum hden
  have hsum : (1 - (1/(1+rm)) ^ dur) / (1 - 1/(1+rm))
      = ∑ i ∈ Finset.range dur, (1/(1+rm) : K) ^ i := by
    rw [geom_sum_eq (ne_of_lt hd1) dur,
      div_eq_div_iff (ne_of_gt hden) (ne_of_lt (by linarith : (1/(1+rm) : K) - 1 < 0))]
    ring
  have hle : (1 - (1/(1+rm)) ^ dur) / (1 - 1/(1+rm)) ≤ (dur : K) := by
    rw [hsum]
    calc ∑ i ∈ Finset.range dur, (1/(1+rm) : K) ^ i
        ≤ (Finset.range dur).card • (1:K) :=
          Finset.sum_le_card_nsmul _ _ _ (fun i _ => pow_le_one₀ hd0.le hd1.le)
    _ = (dur : K) := by rw [Finset.card_range, nsmul_eq_mul, mul_one]
  refine ⟨?_, hcoeff, hle⟩
  unfold Mortgage.compute_payment Mortgage.make
  rw [if_neg (ne_of_gt h1), if_neg (ne_of_gt hden), if_neg (ne_of_gt hcoeff)]

theorem c1_buying (rret rh rm : K) (hm : 0 < rm) :
    (∃ st0, buySetup (c1s rret rh rm) = .ok st0 ∧ dictGet st0.capital.value 0 = 15500) ∧
    (∃ p q, Scenario.simulate_buying (c1s rret rh rm)
      = .error (.mortgageTooExpensive p q)) := by
  obtain ⟨hcp, hcoeff, hcoeffle⟩ :=
    compute_payment_pos_rate ((400000:K) - 80000) rm 12 0 hm (by norm_num)
  have hw1 : Asset.withdraw (Asset.make (100000:K) rret 0) 80000
      = .ok ⟨0, [(0, 20000)], rret⟩ := by
    have h := withdraw_singleton 0 (100000:K) rret 80000 (by norm_num)
    rw [show (100000:K) - 80000 = 20000 from by norm_num] at h
    exact h
  have hw2 : Asset.withdraw (⟨0, [(0, (20000:K))], rret⟩ : Asset K)
      (compute_transfer_tax (400000:K)) = .ok ⟨0, [(0, 15500)], rret⟩ := by
    rw [compute_transfer_tax_at_400000]
    have h := withdraw_singleton 0 (20000:K) rret 4500 (by norm_num)
    rw [show (20000:K) - 4500 = 15500 from by norm_num] at h
    exact h
  have hsetup : buySetup (c1s rret rh rm) = .ok
      { capital := ⟨0, [(0, 15500)], rret⟩,
        house := Asset.make 400000 rh 0,
        mortgage := ⟨0, 0, rm, 400000 - 80000, [(0, 400000 - 80000)], 12,
          ((400000:K) - 80000) / ((1 - (1/(1+rm)) ^ (12:ℕ)) / (1 - 1/(1+rm)))⟩,
        municipal_taxes := [], net_asset_position := [] } := by
    unfold buySetup
    simp only [c1s_initial_capital, c1s_monthly_rate, c1s_today, c1s_downpayment,
      c1s_house_price, c1s_monthly_housing, c1s_monthly_mortgage, c1s_horizon]
    rw [hw1]
    simp only
    rw [hcp]
    simp only
    rw [hw2]
  have hbudget0 : dictGet (create_monthly_series (2000:K) 0 (2/100) 12) 0 = 2000 := by
    have h := create_monthly_series_get (2000:K) (2/100) 0 12 0 (by norm_num)
    simpa using h
  have hpaybig : ¬(((400000:K) - 80000)
      / ((1 - (1/(1+rm)) ^ (12:ℕ)) / (1 - 1/(1+rm))) ≤ 15500 + 2000) := by
    rw [not_le]
    have hA : ((400000:K) - 80000) / (((12:ℕ)):K)
        ≤ ((400000:K) - 80000) / ((1 - (1/(1+rm)) ^ (12:ℕ)) / (1 - 1/(1+rm))) :=
      div_le_div_of_nonneg_left (by norm_num) hcoeff hcoeffle
    have hB : (15500:K) + 2000 < ((400000:K) - 80000) / (((12:ℕ)):K) := by norm_num
    linarith
  refine ⟨⟨_, hsetup, by simp⟩, ?_⟩
  have hstep : buyStep (c1s rret rh rm) 0
      { capital := ⟨0, [(0, (15500:K))], rret⟩,
        house := Asset.make 400000 rh 0,
        mortgage := ⟨0, 0, rm, 400000 - 80000, [(0, 400000 - 80000)], 12,
          ((400000:K) - 80000) / ((1 - (1/(1+rm)) ^ (12:ℕ)) / (1 - 1/(1+rm)))⟩,
        municipal_taxes := [], net_asset_position := [] }
      = .error (.mortgageTooExpensive
          (((400000:K) - 80000) / ((1 - (1/(1+rm)) ^ (12:ℕ)) / (1 - 1/(1+rm)))
            + municipal_tax_rate * 400000)
          (15500 + 2000)) := by
    unfold buyStep computeMunicipalTaxes
    simp only [Asset.make, dictSet_nil, dictGet_single, c1s_budget_series]
    rw [hbudget0]
    rw [if_neg hpaybig]
  unfold Scenario.simulate_buying
  rw [hsetup]
  simp only [c1s_horizon]
  refine ⟨((400000:K) - 80000) / ((1 - (1/(1+rm)) ^ (12:ℕ)) / (1 - 1/(1+rm)))
      + municipal_tax_rate * 400000, 15500 + 2000, ?_⟩
  rw [show (12:ℕ) = 11 + 1 from rfl]
  unfold buyLoop
  rw [show (c1s rret rh rm).today + 0 = 0 from by simp]
  rw [hstep]

theorem c1_renting (rret rh rm : K) (hr : 0 ≤ rret) :
    ∃ a, Scenario.simulate_renting (c1s rret rh rm) = .ok a := by
  unfold Scenario.simulate_renting
  apply rentLoop_ok_of_rent_le_budget (c1s rret rh rm) (by simpa using hr)
  · simp [Asset.make]
  · simp [Asset.make]
  · show (0:K) ≤ dictGet [((c1s rret rh rm).today, (c1s rret rh rm).initial_capital)]
      (c1s rret rh rm).today
    simp
  · intro j hj0 hj
    have hj12 : j < 12 := by simpa using hj
    simp only [c1s_rent_series, c1s_budget_series, c1s_today]
    rw [create_monthly_series_get 1500 (2/100) 0 12 j hj12,
      create_monthly_series_get 2000 (2/100) 0 12 j hj12]
    have hp : (0:K) ≤ (1 + 2/100) ^ (j/12) := by positivity
    exact mul_le_mul_of_nonneg_right (by norm_num) hp

/-- Run `buySetup` on a constructor result (error propagates). -/
def runBuySetup (r : Except (SimError K) (Scenario K)) : Except (SimError K) (BuyState K) :=
  match r with
  | .error e => .error e
  | .ok s => buySetup s

/-- Claim C1 (amended): for the spec's end-to-end scenario (capital 100000,
budget 2000/mo, rent 1500/mo, house 400000, downpayment 80000, 2%/2%/4%/5%
annual rates, horizon 12 months), the constructor succeeds and
`simulate_renting` completes, and in `simulate_buying` the capital at month 0
after the downpayment and transfer-tax withdrawals is exactly
`100000 - 80000 - 4500 = 15500`; but `simulate_buying` does NOT complete: the
mortgage is amortized over `duration = horizon = 12` months, so its monthly
payment exceeds `15500 + 2000` and the month-0 affordability assertion fails. -/
theorem claim_C1 :
    (∃ a, runRenting (Scenario.make 0 100000 2000 1500 400000 80000
        (2/100) (2/100) (4/100) (5/100) 12) = .ok a) ∧
    (∃ st0, runBuySetup (Scenario.make 0 100000 2000 1500 400000 80000
        (2/100) (2/100) (4/100) (5/100) 12) = .ok st0 ∧
      dictGet st0.capital.value 0 = 15500) ∧
    (∃ p q, runBuying (Scenario.make 0 100000 2000 1500 400000 80000
        (2/100) (2/100) (4/100) (5/100) 12) = .error (.mortgageTooExpensive p q)) := by
  have hrent := c1_renting (compute_monthly_rate (5/100)) (compute_monthly_rate (2/100))
    (compute_monthly_rate (4/100)) (compute_monthly_rate_nonneg _ (by norm_num))
  have hbuy := c1_buying (compute_monthly_rate (5/100)) (compute_monthly_rate (2/100))
    (compute_monthly_rate (4/100)) (compute_monthly_rate_pos _ (by norm_num))
  refine ⟨?_, ?_, ?_⟩
  · obtain ⟨a, ha⟩ := hrent
    refine ⟨a, ?_⟩
    unfold runRenting
    rw [c1_make]
    exact ha
  · obtain ⟨⟨st0, hst0, hv⟩, _⟩ := hbuy
    refine ⟨st0, ?_, hv⟩
    unfold runBuySetup
    rw [c1_make]
    exact hst0
  · obtain ⟨_, p, q, herr⟩ := hbuy
    refine ⟨p, q, ?_⟩
    unfold runBuying
    rw [c1_make]
    exact herr

/-- Counterexample to C1 as stated: for the very same scenario,
`simulate_buying` does not complete — it raises the month-0
mortgage-affordability assertion. -/
theorem claim_C1_counterexample :
    isOkE (runBuying (Scenario.make 0 100000 2000 1500 400000 80000
      (2/100) (2/100) (4/100) (5/100) 12)) = false := by
  obtain ⟨_, p, q, herr⟩ := c1_buying (compute_monthly_rate (5/100))
    (compute_monthly_rate (2/100)) (compute_monthly_rate (4/100))
    (compute_monthly_rate_pos _ (by norm_num))
  unfold runBuying
  rw [c1_make]
  show isOkE (Scenario.simulate_buying _) = false
  rw [herr]
  rfl

/-! ### Claim C9: affordability check omits the municipal tax -/

theorem compute_transfer_tax_at_1000000 :
    compute_transfer_tax (1000000 : K) = 16000 := by
  unfold compute_transfer_tax
  rw [if_pos (by norm_num : (0:K) < 1000000), if_pos (by norm_num : (50000:K) < 1000000),
    if_pos (by norm_num : (250000:K) < 1000000), if_pos (by norm_num : (500000:K) < 1000000),
    if_neg (by norm_num : ¬(1000000:K) < 1000000),
    min_eq_right (by norm_num : (50000:K) ≤ 1000000),
    min_eq_right (by norm_num : (250000:K) ≤ 1000000),
    min_eq_right (by norm_num : (500000:K) ≤ 1000000),
    min_eq_right (by norm_num : (1000000:K) ≤ 1000000)]
  ring

/-- The C9 scenario over `ℚ`: house 1000000, downpayment 200000 (exactly 20%),
capital 287000, budget 2000/month, horizon 12, growth and return rates 0, and
an annual mortgage rate of `(101/100)^12 - 1` whose derived monthly rate is
exactly `1/100`. -/
def sC9 : Scenario ℚ :=
  { today := 0, initial_capital := 287000, horizon := 12,
    rent := create_monthly_series 1000 0 0 12,
    housing_budget := create_monthly_series 2000 0 0 12,
    house_price := 1000000, downpayment := 200000,
    housing_gr_rate := 0, rent_gr_rate := 0,
    mortgage_rate := ((101:ℚ)/100) ^ (12:ℕ) - 1, return_rate := 0,
    monthly_rate := 0, monthly_housing_gr_rate := 0, monthly_mortgage_rate := 1/100 }

@[simp] theorem sC9_today : sC9.today = 0 := rfl

@[simp] theorem sC9_initial_capital : sC9.initial_capital = 287000 := rfl

@[simp] theorem sC9_horizon : sC9.horizon = 12 := rfl

@[simp] theorem sC9_house_price : sC9.house_price = 1000000 := rfl

@[simp] theorem sC9_downpayment : sC9.downpayment = 200000 := rfl

@[simp] theorem sC9_budget_series :
    sC9.housing_budget = create_monthly_series 2000 0 0 12 := rfl

@[simp] theorem sC9_monthly_rate : sC9.monthly_rate = 0 := rfl

@[simp] theorem sC9_monthly_housing : sC9.monthly_housing_gr_rate = 0 := rfl

@[simp] theorem sC9_monthly_mortgage : sC9.monthly_mortgage_rate = 1/100 := rfl

theorem sC9_setup : buySetup sC9 = .ok
    { capital := ⟨0, [(0, 71000)], 0⟩,
      house := Asset.make 1000000 0 0,
      mortgage := ⟨0, 0, 1/100, 1000000 - 200000, [(0, 1000000 - 200000)], 12,
        ((1000000:ℚ) - 200000) / ((1 - (1/(1+1/100)) ^ (12:ℕ)) / (1 - 1/(1+1/100)))⟩,
      municipal_taxes := [], net_asset_position := [] } := by
  obtain ⟨hcp, _, _⟩ :=
    compute_payment_pos_rate ((1000000:ℚ) - 200000) (1/100) 12 0 (by norm_num) (by norm_num)
  have hw1 : Asset.withdraw (Asset.make (287000:ℚ) 0 0) 200000
      = .ok ⟨0, [(0, 87000)], 0⟩ := by
    have h := withdraw_singleton 0 (287000:ℚ) 0 200000 (by norm_num)
    rw [show (287000:ℚ) - 200000 = 87000 from by norm_num] at h
    exact h
  have hw2 : Asset.withdraw (⟨0, [(0, (87000:ℚ))], 0⟩ : Asset ℚ)
      (compute_transfer_tax (1000000:ℚ)) = .ok ⟨0, [(0, 71000)], 0⟩ := by
    rw [compute_transfer_tax_at_1000000]
    have h := withdraw_singleton 0 (87000:ℚ) 0 16000 (by norm_num)
    rw [show (87000:ℚ) - 16000 = 71000 from by norm_num] at h
    exact h
  unfold buySetup
  simp only [sC9_initial_capital, sC9_monthly_rate, sC9_today, sC9_downpayment,
    sC9_house_price, sC9_monthly_housing, sC9_monthly_mortgage, sC9_horizon]
  rw [hw1]
  simp only
  rw [hcp]
  simp only
  rw [hw2]

/-- `true` when the month-0 mortgage-affordability check of the buying loop
passes right after setup (the check compares the mortgage payment alone to
capital plus budget). -/
def checkPassesAtSetup (s : Scenario ℚ) : Bool :=
  match buySetup s with
  | .ok st0 => decide (st0.mortgage.monthly_payment
      ≤ dictGet st0.capital.value s.today + dictGet s.housing_budget s.today)
  | .error _ => false

/-- `true` exactly when `simulate_buying` fails with the `Asset.withdraw`
insufficient-funds assertion. -/
def failsInsufficient (s : Scenario ℚ) : Bool :=
  match Scenario.simulate_buying s with
  | .error (.insufficientFunds _) => true
  | _ => false

theorem sC9_budget0 : dictGet (create_monthly_series (2000:ℚ) 0 0 12) 0 = 2000 := by
  have h := create_monthly_series_get (2000:ℚ) 0 0 12 0 (by norm_num)
  simpa using h

/-- Claim C9: a scenario on which the buying loop's affordability check passes
in month 0 (payment alone fits in capital + budget) while the withdrawal of
`payment + municipal tax - budget` fails with the insufficient-funds error,
because the check omits the municipal tax; the scenario's stored monthly
mortgage rate `1/100` is exactly what the constructor derives from the annual
rate `(101/100)^12 - 1`. -/
theorem claim_C9 :
    Scenario.make_with_rates 0 287000 2000 1000 1000000 200000 0 0
        (((101:ℚ)/100) ^ (12:ℕ) - 1) 0 12 0 0 (1/100) = .ok sC9 ∧
    checkPassesAtSetup sC9 = true ∧
    failsInsufficient sC9 = true ∧
    compute_monthly_rate (((101:ℝ)/100) ^ (12:ℕ) - 1) = 1/100 ∧
    sC9.monthly_mortgage_rate = 1/100 := by
  refine ⟨?_, ?_, ?_, ?_, rfl⟩
  · unfold Scenario.make_with_rates sC9
    simp only
    rw [if_pos]
    unfold Scenario.check_data
    rw [Bool.and_eq_true, decide_eq_true_eq, decide_eq_true_eq]
    constructor
    · norm_num
    · norm_num
  · unfold checkPassesAtSetup
    rw [sC9_setup]
    simp only [dictGet_single, sC9_budget_series, sC9_today, decide_eq_true_eq]
    rw [sC9_budget0]
    norm_num
  · have hstep : buyStep sC9 0
        { capital := ⟨0, [(0, (71000:ℚ))], 0⟩,
          house := Asset.make 1000000 0 0,
          mortgage := ⟨0, 0, 1/100, 1000000 - 200000, [(0, 1000000 - 200000)], 12,
            ((1000000:ℚ) - 200000) / ((1 - (1/(1+1/100)) ^ (12:ℕ)) / (1 - 1/(1+1/100)))⟩,
          municipal_taxes := [], net_asset_position := [] }
        = .error (.insufficientFunds
            (((1000000:ℚ) - 200000) / ((1 - (1/(1+1/100)) ^ (12:ℕ)) / (1 - 1/(1+1/100)))
              + municipal_tax_rate * 1000000 - 2000 - 71000)) := by
      unfold buyStep computeMunicipalTaxes
      simp only [Asset.make, dictSet_nil, dictGet_single, sC9_budget_series]
      rw [sC9_budget0]
      rw [if_pos (by norm_num [municipal_tax_rate] :
        ((1000000:ℚ) - 200000) / ((1 - (1/(1+1/100)) ^ (12:ℕ)) / (1 - 1/(1+1/100)))
          ≤ 71000 + 2000)]
      rw [if_neg (by norm_num [municipal_tax_rate] :
        ¬(((1000000:ℚ) - 200000) / ((1 - (1/(1+1/100)) ^ (12:ℕ)) / (1 - 1/(1+1/100)))
          + municipal_tax_rate * 1000000 ≤ 2000))]
      unfold Asset.withdraw
      simp only [dictGet_single]
      rw [if_neg (by norm_num [municipal_tax_rate] :
        ¬(((1000000:ℚ) - 200000) / ((1 - (1/(1+1/100)) ^ (12:ℕ)) / (1 - 1/(1+1/100)))
          + municipal_tax_rate * 1000000 - 2000 ≤ 71000))]
    unfold failsInsufficient
    unfold Scenario.simulate_buying
    rw [sC9_setup]
    simp only [sC9_horizon]
    rw [show (12:ℕ) = 11 + 1 from rfl]
    unfold buyLoop
    rw [show sC9.today + 0 = 0 from by simp]
    rw [hstep]
  · have h := compute_monthly_rate_of_pow (1/100) (by norm_num)
    rw [show ((101:ℝ)/100) = 1 + 1/100 from by norm_num]
    exact h
